import Mathlib

set_option autoImplicit false

namespace ContextQA

/-! Shallow embedding of the contextqa core: string-keyed dictionaries (Python `dict`),
the closure-based settings manager (`contextqa/utils/settings.py`), the streaming chat
engine (`contextqa/services/chat.py`), and the ingestion routes
(`contextqa/routes/sources.py`, `main.py`). Components whose implementation is not part
of the sources at hand (BatchProcessor, get_sources, the chunk-config validation, the
history adapter) are modelled from the specification and marked as such. -/

/-- Lookup in a string-keyed association list, mirroring Python `dict` access:
the first matching key wins. -/
def dictGet {α : Type} : List (String × α) → String → Option α
  | [], _ => none
  | (k, v) :: rest, key => if k = key then some v else dictGet rest key

/-- Insert-or-replace for a string-keyed association list, mirroring Python
`d[key] = val`: an existing binding is replaced in place, a new one is appended. -/
def dictInsert {α : Type} : List (String × α) → String → α → List (String × α)
  | [], key, val => [(key, val)]
  | (k, v) :: rest, key, val =>
    if k = key then (key, val) :: rest else (k, v) :: dictInsert rest key val

/-- Merge of keyword arguments into a dictionary, mirroring Python `d.update(kwargs)`. -/
def dictUpdate {α : Type} (d kw : List (String × α)) : List (String × α) :=
  kw.foldl (fun acc p => dictInsert acc p.1 p.2) d

/-- State touched by `contextqa/utils/settings.py`: the closure variable `settings`
and the module-level `app_settings.model_settings`. -/
structure ConfigState where
  settings : List (String × String)
  model_settings : List (String × String)
deriving DecidableEq

/-- Embeds `_config_manager` from `contextqa/utils/settings.py`: the closure captures
`app_settings.model_settings` as its initial `settings`. -/
def _config_manager (model_settings : List (String × String)) : ConfigState :=
  ConfigState.mk model_settings model_settings

/-- Embeds the inner `config_manager` (bound at module level as `get_or_set`) from
`contextqa/utils/settings.py`, with the mutable state passed explicitly. With no
keyword arguments it returns the current settings unchanged; otherwise it merges the
keyword arguments into the closure settings and writes the result back to
`app_settings.model_settings`. -/
def get_or_set (st : ConfigState) (kwargs : List (String × String)) :
    List (String × String) × ConfigState :=
  if kwargs.isEmpty then (st.settings, st)
  else
    let s := dictUpdate st.settings kwargs
    (s, ConfigState.mk s s)

/-- Chat messages recorded in conversation memory. -/
inductive Message where
  | human (text : String)
  | ai (text : String)
deriving DecidableEq

/-- Prompt template entries, mirroring langchain chat prompt messages. -/
inductive MessageTemplate where
  | system (text : String)
  | placeholder (variable_name : String)
  | human (text : String)
deriving DecidableEq

/-- Embeds `_MESSAGES` from `contextqa/services/chat.py`. -/
def _MESSAGES : List MessageTemplate :=
  [MessageTemplate.system
      "You are a helpful assistant called ContextQA that answers user inputs and questions",
   MessageTemplate.placeholder "history",
   MessageTemplate.human "{input}"]

/-- Tools available to the agent; `contextqa.agents.tools` exposes a single search tool. -/
inductive Tool where
  | searcher
deriving DecidableEq

/-- Embeds `searcher` imported from `contextqa.agents.tools`. -/
def searcher : Tool := Tool.searcher

/-- Conversation-memory backends; `contextqa.utils.memory` exposes `Redis`. -/
inductive MemoryBackend where
  | redis
deriving DecidableEq

/-- Runnables built by the chat service: a tool-using agent executor, a direct
prompt-to-model chain, or a history-aware wrapper around either. -/
inductive Runnable where
  | agentExecutor (agentPrompt : String) (tools : List Tool)
  | chain (prompt : List MessageTemplate)
  | withHistory (inner : Runnable) (memoryBackend : MemoryBackend)
      (input_messages_key : String) (history_messages_key : String)
deriving DecidableEq

/-- The tools a runnable is bound to (a plain chain has none). -/
def Runnable.toolList : Runnable → List Tool
  | Runnable.agentExecutor _ tools => tools
  | Runnable.chain _ => []
  | Runnable.withHistory inner _ _ _ => inner.toolList

/-- The runnable wrapped by a history adapter (identity on unwrapped runnables). -/
def Runnable.innerOf : Runnable → Runnable
  | Runnable.withHistory inner _ _ _ => inner
  | r => r

/-- The memory backend a history-wrapped runnable is bound to. -/
def Runnable.memoryOf : Runnable → Option MemoryBackend
  | Runnable.withHistory _ m _ _ => some m
  | _ => none

/-- Embeds `get_llm_assistant` from `contextqa/services/chat.py`: with internet access a
JSON chat agent over `[searcher]` wrapped in `RunnableWithMessageHistory` with
`memory.Redis`; otherwise the `_MESSAGES` prompt piped into the model, wrapped the same
way. -/
def get_llm_assistant (internet_access : Bool) : Runnable :=
  let tools := [searcher]
  if internet_access then
    Runnable.withHistory (Runnable.agentExecutor "hwchase17/react-chat-json" tools)
      MemoryBackend.redis "input" "chat_history"
  else
    Runnable.withHistory (Runnable.chain _MESSAGES) MemoryBackend.redis "input" "history"

/-- Embeds `LLMQueryRequest` from `contextqa.models.schemas` as used by `qa_service`. -/
structure LLMQueryRequest where
  message : String
  internet_access : Bool
deriving DecidableEq

/-- The `astream` invocation built by `qa_service`: which assistant is invoked, with
which input, under which session id. -/
structure StreamInvocation where
  assistant : Runnable
  input : String
  session_id : String
deriving DecidableEq

/-- Embeds `qa_service` from `contextqa/services/chat.py`: it builds the assistant from
the request flag and streams `params.message` under the constant session id
`"default"`. -/
def qa_service (params : LLMQueryRequest) : StreamInvocation :=
  StreamInvocation.mk (get_llm_assistant params.internet_access) params.message "default"

/-- Modelled from the spec: the history-aware adapter (`RunnableWithMessageHistory`
over `memory.Redis`; the memory utility module is not among the sources). Before
invocation it loads the prior turns for the session from conversation memory, and after
invocation it appends the new human message and the assistant full response. `respond`
abstracts the wrapped runnable's reply as a function of history and input. -/
def invokeWithHistory (respond : List Message → String → String)
    (store : List (String × List Message)) (session_id : String) (input : String) :
    String × List (String × List Message) :=
  let history := (dictGet store session_id).getD []
  let response := respond history input
  (response,
   dictInsert store session_id (history ++ [Message.human input, Message.ai response]))

/-- The exception taxonomy raised through the ingestion entry points
(`contextqa.utils.exceptions` plus the catch-all `Exception`). -/
inductive Exc where
  | duplicatedSource (msg : String)
  | vectorDBConnection (msg : String)
  | invalidChunkConfig (msg : String)
  | other (msg : String)
deriving DecidableEq

/-- The message carried by an exception. -/
def excMessage : Exc → String
  | Exc.duplicatedSource m => m
  | Exc.vectorDBConnection m => m
  | Exc.invalidChunkConfig m => m
  | Exc.other m => m

/-- Aggregate ingestion outcome counts (`IngestionResult` schema). -/
structure IngestionResult where
  stored : Nat
  skipped : Nat
  failed : Nat
deriving DecidableEq

/-- A document handed to ingestion: upload name and raw content. -/
structure Document where
  name : String
  content : String
deriving DecidableEq

/-- The source catalog as consumed by the core: name to content digest. -/
abbrev Catalog := List (String × String)

/-- Count one stored document into a pending aggregate result. -/
def bumpStored : Except Exc IngestionResult → Except Exc IngestionResult
  | Except.ok r => Except.ok (IngestionResult.mk (r.stored + 1) r.skipped r.failed)
  | e => e

/-- Count one skipped duplicate into a pending aggregate result. -/
def bumpSkipped : Except Exc IngestionResult → Except Exc IngestionResult
  | Except.ok r => Except.ok (IngestionResult.mk r.stored (r.skipped + 1) r.failed)
  | e => e

/-- Modelled from the spec: `BatchProcessor.persist` (the BatchProcessor implementation
is not among the sources). Per document: compute the content digest and look the name
up in the catalog; if present with an equal digest the document is silently skipped in
batch mode and recorded as a duplicate in the aggregate result; if absent, or present
with a different digest, its chunks are (re)ingested and the catalog entry is created
or updated. A vector-store connection failure aborts the remaining pipeline for the
call. `connectionOk` abstracts reachability of the vector store backend. -/
def BatchProcessor.persist (digestOf : String → String) (connectionOk : Bool) :
    List Document → Catalog → Except Exc IngestionResult × Catalog
  | [], cat => (Except.ok (IngestionResult.mk 0 0 0), cat)
  | doc :: rest, cat =>
    let digest := digestOf doc.content
    if dictGet cat doc.name = some digest then
      let res := BatchProcessor.persist digestOf connectionOk rest cat
      (bumpSkipped res.1, res.2)
    else if connectionOk then
      let res :=
        BatchProcessor.persist digestOf connectionOk rest (dictInsert cat doc.name digest)
      (bumpStored res.1, res.2)
    else
      (Except.error (Exc.vectorDBConnection "vector store unreachable"), cat)

/-- Detail payload of an HTTPException raised by the routes. -/
structure ErrorDetail where
  message : String
  cause : String
deriving DecidableEq

/-- A route outcome: a successful response body or an HTTP error. -/
inductive RouteResponse (α : Type) where
  | ok (result : α)
  | httpError (statusCode : Nat) (detail : ErrorDetail)
deriving DecidableEq

/-- Conflict message of the batch ingestion route (`contextqa/routes/sources.py`). -/
def duplicate_conflict_message : String :=
  "The source already exists and it doesn\x27t have updated content"

/-- Connection-failure message shared by both ingestion routes. -/
def connection_error_message : String :=
  "Connection error trying to set the context using the selected vector store. Please double check your credentials"

/-- Generic failure message shared by both ingestion routes. -/
def generic_error_message : String :=
  "ContextQA server did not process the request successfully"

/-- Embeds the exception mapping of `ingest_source` (`contextqa/routes/sources.py`):
`DuplicatedSourceError` becomes 409 Conflict, `VectorDBConnectionError` becomes
424 Failed Dependency, anything else becomes 500 Internal Server Error; a normal
return is passed through as the response body. -/
def ingest_source (outcome : Except Exc IngestionResult) : RouteResponse IngestionResult :=
  match outcome with
  | Except.ok r => RouteResponse.ok r
  | Except.error (Exc.duplicatedSource m) =>
      RouteResponse.httpError 409 (ErrorDetail.mk duplicate_conflict_message m)
  | Except.error (Exc.vectorDBConnection m) =>
      RouteResponse.httpError 424 (ErrorDetail.mk connection_error_message m)
  | Except.error e =>
      RouteResponse.httpError 500 (ErrorDetail.mk generic_error_message (excMessage e))

/-- Answer payload of the single-document context routes (`models.LLMResult`). -/
structure LLMResult where
  response : String
deriving DecidableEq

/-- Embeds the exception mapping of `set_context` (`main.py`): `VectorStoreConnectionError`
becomes 424 with the connection-specific message, any other exception becomes 424 with
the generic message; a normal return is passed through as the response body. -/
def set_context (outcome : Except Exc LLMResult) : RouteResponse LLMResult :=
  match outcome with
  | Except.ok r => RouteResponse.ok r
  | Except.error (Exc.vectorDBConnection m) =>
      RouteResponse.httpError 424 (ErrorDetail.mk connection_error_message m)
  | Except.error e =>
      RouteResponse.httpError 424 (ErrorDetail.mk generic_error_message (excMessage e))

/-- Ingestion configuration carried by `LLMRequestBodyBase`. -/
structure ChunkConfig where
  separator : String
  chunk_size : Int
  chunk_overlap : Int
deriving DecidableEq

/-- Modelled from the spec: validation of the ingestion configuration (the
`LLMRequestBodyBase` validators and the Chunker are not among the sources). The
configuration contract is `chunk_size: int>0, chunk_overlap: int>=0 and < chunk_size`;
a violation is the caller error `InvalidChunkConfig`. -/
def validateChunkConfig (cfg : ChunkConfig) : Except Exc Unit :=
  if 0 < cfg.chunk_size ∧ 0 ≤ cfg.chunk_overlap ∧ cfg.chunk_overlap < cfg.chunk_size then
    Except.ok ()
  else
    Except.error (Exc.invalidChunkConfig "invalid chunk configuration")

/-- An ingestion entry point: the configuration is validated before any pipeline work;
a rejected request produces `InvalidChunkConfig` immediately and leaves the catalog
untouched, otherwise the batch pipeline runs. -/
def ingestEntry (digestOf : String → String) (connectionOk : Bool) (cfg : ChunkConfig)
    (docs : List Document) (cat : Catalog) : Except Exc IngestionResult × Catalog :=
  match validateChunkConfig cfg with
  | Except.error e => (Except.error e, cat)
  | Except.ok _ => BatchProcessor.persist digestOf connectionOk docs cat

/-- A catalog row as returned by the sources service (id, name, digest). -/
structure CatalogSource where
  id : Nat
  name : String
  digest : String
deriving DecidableEq

/-- The `Source` response schema of the listing route (id, title, digest). -/
structure SourceSchema where
  id : Nat
  title : String
  digest : String
deriving DecidableEq

/-- The `SourcesList` response schema of the listing route. -/
structure SourcesList where
  sources : List SourceSchema
  total : Nat
deriving DecidableEq

/-- Modelled from the spec: `get_sources` (`contextqa.services.sources` is not among
the sources): `list(limit, skip)` returns one page of catalog rows in insertion order
together with the unfiltered total count. -/
def get_sources (catalog : List CatalogSource) (limit : Nat) (skip : Nat) :
    List CatalogSource × Nat :=
  ((catalog.drop skip).take limit, catalog.length)

/-- Query parameters of the listing route; `none` means the parameter was omitted. -/
structure ListParams where
  limit : Option Int
  skip : Option Int
deriving DecidableEq

/-- The effective `limit`, embedding the FastAPI default `limit = 10`. -/
def resolveLimit (p : ListParams) : Int := p.limit.getD 10

/-- The effective `skip`, embedding the FastAPI default `skip = 0`. -/
def resolveSkip (p : ListParams) : Int := p.skip.getD 0

/-- Embeds `get_active_sources` (`contextqa/routes/sources.py`) together with the
FastAPI query validation `limit >= 1`, `skip >= 0` (a violating request is rejected,
returning `none`): the page returned by `get_sources` is mapped to `Source` entries
with `title = name`, and the total is passed through. -/
def get_active_sources (catalog : List CatalogSource) (p : ListParams) :
    Option SourcesList :=
  if 1 ≤ resolveLimit p ∧ 0 ≤ resolveSkip p then
    let pair := get_sources catalog (resolveLimit p).toNat (resolveSkip p).toNat
    some (SourcesList.mk
      (pair.1.map (fun s => SourceSchema.mk s.id s.name s.digest)) pair.2)
  else none

/-! Helper lemmas about the dictionary model, shared across the claims. -/

theorem dictGet_dictInsert_self {α : Type} (d : List (String × α)) (k : String) (v : α) :
    dictGet (dictInsert d k v) k = some v := by
  induction d with
  | nil => simp [dictInsert, dictGet]
  | cons hd tl ih =>
    obtain ⟨k', v'⟩ := hd
    by_cases h : k' = k
    · simp [dictInsert, dictGet, h]
    · simp [dictInsert, dictGet, h, ih]

theorem dictGet_dictInsert_ne {α : Type} (d : List (String × α)) (k key : String) (v : α)
    (h : key ≠ k) : dictGet (dictInsert d k v) key = dictGet d key := by
  have h' : k ≠ key := Ne.symm h
  induction d with
  | nil => simp [dictInsert, dictGet, h']
  | cons hd tl ih =>
    obtain ⟨k', v'⟩ := hd
    by_cases hk : k' = k
    · subst hk
      simp [dictInsert, dictGet, h']
    · simp [dictInsert, dictGet, hk, ih]

theorem dictGet_dictUpdate_notMem {α : Type} (d kw : List (String × α)) (k : String)
    (h : k ∉ kw.map Prod.fst) : dictGet (dictUpdate d kw) k = dictGet d k := by
  induction kw generalizing d with
  | nil => rfl
  | cons p tl ih =>
    simp only [List.map_cons, List.mem_cons] at h
    push_neg at h
    have step : dictUpdate d (p :: tl) = dictUpdate (dictInsert d p.1 p.2) tl := rfl
    rw [step, ih (dictInsert d p.1 p.2) h.2, dictGet_dictInsert_ne d p.1 k p.2 h.1]

theorem dictGet_dictUpdate_mem {α : Type} (d kw : List (String × α)) (k : String) (v : α)
    (hnd : (kw.map Prod.fst).Nodup) (h : (k, v) ∈ kw) :
    dictGet (dictUpdate d kw) k = some v := by
  induction kw generalizing d with
  | nil => cases h
  | cons p tl ih =>
    simp only [List.map_cons, List.nodup_cons] at hnd
    have step : dictUpdate d (p :: tl) = dictUpdate (dictInsert d p.1 p.2) tl := rfl
    rcases List.mem_cons.mp h with heq | hmem
    · subst heq
      have hnotin : (k : String) ∉ tl.map Prod.fst := by simpa using hnd.1
      rw [step, dictGet_dictUpdate_notMem (dictInsert d k v) tl k hnotin,
        dictGet_dictInsert_self]
    · exact step ▸ ih (dictInsert d p.1 p.2) hnd.2 hmem

/-! Claim theorems. -/

/-- C9: for every non-empty keyword-argument set `kw`, calling `get_or_set` with `kw`
and then `get_or_set` with no arguments returns a settings dictionary in which every
key of `kw` maps to the value given in `kw`, every key absent from `kw` maps to the
value it had before the write, and the written dictionary is persisted to the
module-level `app_settings.model_settings`. -/
theorem get_or_set_merge_semantics (st : ConfigState) (kw : List (String × String))
    (k : String) (v : String) (hne : kw ≠ []) (hnd : (kw.map Prod.fst).Nodup) :
    ((k, v) ∈ kw → dictGet (get_or_set (get_or_set st kw).2 []).1 k = some v) ∧
    (k ∉ kw.map Prod.fst →
      dictGet (get_or_set (get_or_set st kw).2 []).1 k = dictGet st.settings k) ∧
    (get_or_set st kw).2.model_settings = (get_or_set (get_or_set st kw).2 []).1 := by
  obtain ⟨a, tl, rfl⟩ := List.exists_cons_of_ne_nil hne
  refine ⟨fun hmem => ?_, fun hnot => ?_, ?_⟩
  · simp only [get_or_set, List.isEmpty_cons, Bool.false_eq_true, if_false,
      List.isEmpty_nil, if_true]
    exact dictGet_dictUpdate_mem st.settings (a :: tl) k v hnd hmem
  · simp only [get_or_set, List.isEmpty_cons, Bool.false_eq_true, if_false,
      List.isEmpty_nil, if_true]
    exact dictGet_dictUpdate_notMem st.settings (a :: tl) k hnot
  · simp [get_or_set]

/-- C9 witness: a concrete write followed by a read shows merged values, preserved
values, and persistence to the module-level settings. -/
theorem get_or_set_merge_semantics_witness :
    dictGet (get_or_set (get_or_set (_config_manager [("model", "gpt"), ("temperature", "0")])
        [("temperature", "1"), ("top_p", "2")]).2 []).1 "temperature" = some "1" ∧
    dictGet (get_or_set (get_or_set (_config_manager [("model", "gpt"), ("temperature", "0")])
        [("temperature", "1"), ("top_p", "2")]).2 []).1 "model" =
      dictGet (_config_manager [("model", "gpt"), ("temperature", "0")]).settings "model" ∧
    (get_or_set (_config_manager [("model", "gpt"), ("temperature", "0")])
        [("temperature", "1"), ("top_p", "2")]).2.model_settings =
      (get_or_set (get_or_set (_config_manager [("model", "gpt"), ("temperature", "0")])
        [("temperature", "1"), ("top_p", "2")]).2 []).1 :=
  ⟨(get_or_set_merge_semantics (_config_manager [("model", "gpt"), ("temperature", "0")])
      [("temperature", "1"), ("top_p", "2")] "temperature" "1" (by decide) (by decide)).1
      (by decide),
   (get_or_set_merge_semantics (_config_manager [("model", "gpt"), ("temperature", "0")])
      [("temperature", "1"), ("top_p", "2")] "model" "0" (by decide) (by decide)).2.1
      (by decide),
   (get_or_set_merge_semantics (_config_manager [("model", "gpt"), ("temperature", "0")])
      [("temperature", "1"), ("top_p", "2")] "temperature" "1" (by decide) (by decide)).2.2⟩

/-- C10: calling `get_or_set` with no keyword arguments is a pure read: it returns the
current closure settings and leaves both the closure state and
`app_settings.model_settings` unchanged. -/
theorem get_or_set_read_is_pure (st : ConfigState) :
    get_or_set st [] = (st.settings, st) := rfl

/-- C4: for every chat request, `qa_service` invokes the assistant with the constant
session id `"default"`; all chat callers therefore share one conversation history, and
the session key is never derived from the request. The assistant and input are the only
request-dependent parts of the invocation. -/
theorem qa_service_session_id_constant (p q : LLMQueryRequest) :
    (qa_service p).session_id = "default" ∧
    (qa_service p).session_id = (qa_service q).session_id ∧
    (qa_service p).input = p.message ∧
    (qa_service p).assistant = get_llm_assistant p.internet_access :=
  ⟨rfl, rfl, rfl, rfl⟩

/-- C5: `get_llm_assistant` builds a tool-using agent whose tool list is exactly the
single search tool when internet access is requested, and a direct prompt-to-model
chain with no tools otherwise. -/
theorem get_llm_assistant_tool_selection (b : Bool) :
    (get_llm_assistant b).toolList = (if b then [Tool.searcher] else []) ∧
    (get_llm_assistant true).innerOf =
      Runnable.agentExecutor "hwchase17/react-chat-json" [Tool.searcher] ∧
    (get_llm_assistant false).innerOf = Runnable.chain _MESSAGES :=
  ⟨by cases b <;> rfl, rfl, rfl⟩

/-- C6: for both values of `internet_access` the runnable returned by
`get_llm_assistant` is history-wrapped and bound to the Redis conversation memory, and
the history-aware adapter responds from the prior turns of the session and afterwards
appends the new human message and the assistant full response to that session only. -/
theorem assistant_history_adapter (b : Bool) (respond : List Message → String → String)
    (store : List (String × List Message)) (sid input other : String) :
    (get_llm_assistant b).memoryOf = some MemoryBackend.redis ∧
    (invokeWithHistory respond store sid input).1 =
      respond ((dictGet store sid).getD []) input ∧
    dictGet (invokeWithHistory respond store sid input).2 sid =
      some ((dictGet store sid).getD [] ++
        [Message.human input, Message.ai (respond ((dictGet store sid).getD []) input)]) ∧
    (other ≠ sid →
      dictGet (invokeWithHistory respond store sid input).2 other = dictGet store other) := by
  refine ⟨by cases b <;> rfl, rfl, ?_, fun hne => ?_⟩
  · exact dictGet_dictInsert_self store sid _
  · exact dictGet_dictInsert_ne store sid other _ hne

/-- C6 witness: a concrete invocation over a two-session store shows the response built
from prior history, the appended turn for the invoked session, and the untouched other
session. -/
theorem assistant_history_adapter_witness :
    (get_llm_assistant true).memoryOf = some MemoryBackend.redis ∧
    (invokeWithHistory (fun h i => i ++ toString h.length)
        [("default", [Message.human "hi", Message.ai "hello"]), ("other", [])]
        "default" "why").1 =
      (fun (h : List Message) (i : String) => i ++ toString h.length)
        ((dictGet [("default", [Message.human "hi", Message.ai "hello"]), ("other", [])]
          "default").getD []) "why" ∧
    dictGet (invokeWithHistory (fun h i => i ++ toString h.length)
        [("default", [Message.human "hi", Message.ai "hello"]), ("other", [])]
        "default" "why").2 "default" =
      some ((dictGet [("default", [Message.human "hi", Message.ai "hello"]), ("other", [])]
          "default").getD [] ++
        [Message.human "why",
         Message.ai ((fun (h : List Message) (i : String) => i ++ toString h.length)
          ((dictGet [("default", [Message.human "hi", Message.ai "hello"]), ("other", [])]
            "default").getD []) "why")]) ∧
    dictGet (invokeWithHistory (fun h i => i ++ toString h.length)
        [("default", [Message.human "hi", Message.ai "hello"]), ("other", [])]
        "default" "why").2 "other" =
      dictGet [("default", [Message.human "hi", Message.ai "hello"]), ("other", [])]
        "other" :=
  ⟨(assistant_history_adapter true (fun h i => i ++ toString h.length)
      [("default", [Message.human "hi", Message.ai "hello"]), ("other", [])]
      "default" "why" "other").1,
   (assistant_history_adapter true (fun h i => i ++ toString h.length)
      [("default", [Message.human "hi", Message.ai "hello"]), ("other", [])]
      "default" "why" "other").2.1,
   (assistant_history_adapter true (fun h i => i ++ toString h.length)
      [("default", [Message.human "hi", Message.ai "hello"]), ("other", [])]
      "default" "why" "other").2.2.1,
   (assistant_history_adapter true (fun h i => i ++ toString h.length)
      [("default", [Message.human "hi", Message.ai "hello"]), ("other", [])]
      "default" "why" "other").2.2.2 (by decide)⟩

theorem persist_not_duplicated (digestOf : String → String) (conn : Bool)
    (docs : List Document) (cat : Catalog) (m : String) :
    (BatchProcessor.persist digestOf conn docs cat).1 ≠
      Except.error (Exc.duplicatedSource m) := by
  induction docs generalizing cat with
  | nil => simp [BatchProcessor.persist]
  | cons doc rest ih =>
    simp only [BatchProcessor.persist]
    split
    · cases h : (BatchProcessor.persist digestOf conn rest cat).1 with
      | ok r => simp [bumpSkipped, h]
      | error e =>
        have hne := ih cat
        rw [h] at hne
        simpa [bumpSkipped, h] using hne
    · split
      · cases h : (BatchProcessor.persist digestOf conn rest
            (dictInsert cat doc.name (digestOf doc.content))).1 with
        | ok r => simp [bumpStored, h]
        | error e =>
          have hne := ih (dictInsert cat doc.name (digestOf doc.content))
          rw [h] at hne
          simpa [bumpStored, h] using hne
      · simp

/-- C1: batch ingestion silently skips a document whose digest equals the catalogued
digest for its name, recording it in the aggregate result; `BatchProcessor.persist`
never produces `DuplicatedSourceError`, so the batch entry point never answers with the
409 duplicate conflict. -/
theorem batch_ingestion_skips_duplicates (digestOf : String → String) (conn : Bool)
    (docs rest : List Document) (doc : Document) (cat : Catalog) (m : String)
    (d : ErrorDetail) :
    (BatchProcessor.persist digestOf conn docs cat).1 ≠
      Except.error (Exc.duplicatedSource m) ∧
    ingest_source (BatchProcessor.persist digestOf conn docs cat).1 ≠
      RouteResponse.httpError 409 d ∧
    (dictGet cat doc.name = some (digestOf doc.content) →
      BatchProcessor.persist digestOf conn (doc :: rest) cat =
        (bumpSkipped (BatchProcessor.persist digestOf conn rest cat).1,
         (BatchProcessor.persist digestOf conn rest cat).2)) := by
  refine ⟨persist_not_duplicated digestOf conn docs cat m, ?_, fun h => ?_⟩
  · cases hres : (BatchProcessor.persist digestOf conn docs cat).1 with
    | ok r => simp [ingest_source]
    | error e =>
      cases e with
      | duplicatedSource me =>
        exact absurd hres (persist_not_duplicated digestOf conn docs cat me)
      | vectorDBConnection me => simp [ingest_source]
      | invalidChunkConfig me => simp [ingest_source]
      | other me => simp [ingest_source]
  · simp [BatchProcessor.persist, h]

/-- C1 witness: re-ingesting an already catalogued, unchanged document inside a batch
is recorded as a skip, not an error. -/
theorem batch_ingestion_skips_duplicates_witness :
    dictGet [("a.txt", "hello")] (Document.mk "a.txt" "hello").name =
      some ((fun s => s) (Document.mk "a.txt" "hello").content) ∧
    BatchProcessor.persist (fun s => s) true [Document.mk "a.txt" "hello"]
        [("a.txt", "hello")] =
      (bumpSkipped (BatchProcessor.persist (fun s => s) true [] [("a.txt", "hello")]).1,
       (BatchProcessor.persist (fun s => s) true [] [("a.txt", "hello")]).2) :=
  ⟨by decide,
   (batch_ingestion_skips_duplicates (fun s => s) true [] []
      (Document.mk "a.txt" "hello") [("a.txt", "hello")] "" (ErrorDetail.mk "" "")).2.2
      (by decide)⟩

/-- C2: the batch ingestion endpoint answers `DuplicatedSourceError` with HTTP 409
Conflict and any unclassified exception with HTTP 500, so the duplicate conflict is
distinguishable from generic failure. -/
theorem ingest_source_status_codes (m : String) (r : IngestionResult) :
    ingest_source (Except.ok r) = RouteResponse.ok r ∧
    ingest_source (Except.error (Exc.duplicatedSource m)) =
      RouteResponse.httpError 409 (ErrorDetail.mk duplicate_conflict_message m) ∧
    ingest_source (Except.error (Exc.other m)) =
      RouteResponse.httpError 500 (ErrorDetail.mk generic_error_message m) ∧
    ingest_source (Except.error (Exc.invalidChunkConfig m)) =
      RouteResponse.httpError 500 (ErrorDetail.mk generic_error_message m) ∧
    (409 : Nat) ≠ 500 :=
  ⟨rfl, rfl, rfl, rfl, by decide⟩

/-- C3: a request accepted by an ingestion entry point satisfies
`chunk_size > 0` and `0 <= chunk_overlap < chunk_size`; a violating request is rejected
as `InvalidChunkConfig` immediately, leaving the catalog untouched. -/
theorem chunk_config_validation (cfg : ChunkConfig) (digestOf : String → String)
    (conn : Bool) (docs : List Document) (cat : Catalog) (r : IngestionResult) :
    (validateChunkConfig cfg = Except.ok () ↔
      (0 < cfg.chunk_size ∧ 0 ≤ cfg.chunk_overlap ∧ cfg.chunk_overlap < cfg.chunk_size)) ∧
    ((ingestEntry digestOf conn cfg docs cat).1 = Except.ok r →
      (0 < cfg.chunk_size ∧ 0 ≤ cfg.chunk_overlap ∧ cfg.chunk_overlap < cfg.chunk_size)) ∧
    (¬(0 < cfg.chunk_size ∧ 0 ≤ cfg.chunk_overlap ∧ cfg.chunk_overlap < cfg.chunk_size) →
      ingestEntry digestOf conn cfg docs cat =
        (Except.error (Exc.invalidChunkConfig "invalid chunk configuration"), cat)) := by
  by_cases h : 0 < cfg.chunk_size ∧ 0 ≤ cfg.chunk_overlap ∧ cfg.chunk_overlap < cfg.chunk_size
  · exact ⟨by simp [validateChunkConfig, h], fun _ => h, fun hc => absurd h hc⟩
  · refine ⟨by simp [validateChunkConfig, h], fun hok => ?_, fun _ => ?_⟩
    · exact absurd hok (by simp [ingestEntry, validateChunkConfig, h])
    · simp [ingestEntry, validateChunkConfig, h]

/-- C3 witness: a zero chunk size is rejected as `InvalidChunkConfig` with the catalog
left unchanged. -/
theorem chunk_config_validation_witness :
    ¬(0 < (ChunkConfig.mk "." 0 50).chunk_size ∧
        0 ≤ (ChunkConfig.mk "." 0 50).chunk_overlap ∧
        (ChunkConfig.mk "." 0 50).chunk_overlap < (ChunkConfig.mk "." 0 50).chunk_size) ∧
    ingestEntry (fun s => s) true (ChunkConfig.mk "." 0 50) [] [] =
      (Except.error (Exc.invalidChunkConfig "invalid chunk configuration"), []) :=
  ⟨by decide,
   (chunk_config_validation (ChunkConfig.mk "." 0 50) (fun s => s) true [] []
      (IngestionResult.mk 0 0 0)).2.2 (by decide)⟩

/-- C7: a vector-store connection error is surfaced by both ingestion entry points as
HTTP 424 Failed Dependency carrying the connection-specific message, and that response
differs from the generic-failure response (different status on the batch route,
different message on the single-document route). -/
theorem vector_store_connection_surfaced (m mg : String) (d : ErrorDetail) :
    ingest_source (Except.error (Exc.vectorDBConnection m)) =
      RouteResponse.httpError 424 (ErrorDetail.mk connection_error_message m) ∧
    set_context (Except.error (Exc.vectorDBConnection m)) =
      RouteResponse.httpError 424 (ErrorDetail.mk connection_error_message m) ∧
    ingest_source (Except.error (Exc.other mg)) ≠ RouteResponse.httpError 424 d ∧
    set_context (Except.error (Exc.other mg)) =
      RouteResponse.httpError 424 (ErrorDetail.mk generic_error_message mg) ∧
    connection_error_message ≠ generic_error_message :=
  ⟨rfl, rfl, by simp [ingest_source], rfl, by decide⟩

/-- C8: the source-listing route defaults `limit` to 10 and `skip` to 0, accepts a
request exactly when `limit >= 1` and `skip >= 0`, and answers with one
`{id, title, digest}` entry per catalog row of the requested page together with the
unfiltered catalog count. -/
theorem get_active_sources_contract (cat : List CatalogSource) (p : ListParams)
    (r : SourcesList) :
    resolveLimit (ListParams.mk none none) = 10 ∧
    resolveSkip (ListParams.mk none none) = 0 ∧
    ((get_active_sources cat p).isSome ↔ (1 ≤ resolveLimit p ∧ 0 ≤ resolveSkip p)) ∧
    (get_active_sources cat p = some r →
      r.sources = ((cat.drop (resolveSkip p).toNat).take (resolveLimit p).toNat).map
          (fun s => SourceSchema.mk s.id s.name s.digest) ∧
      r.total = cat.length) := by
  refine ⟨rfl, rfl, ?_, fun h => ?_⟩
  · by_cases hv : 1 ≤ resolveLimit p ∧ 0 ≤ resolveSkip p
    · simp [get_active_sources, hv]
    · simp [get_active_sources, hv]
  · by_cases hv : 1 ≤ resolveLimit p ∧ 0 ≤ resolveSkip p
    · simp only [get_active_sources, if_pos hv, get_sources, Option.some.injEq] at h
      subst h
      exact ⟨rfl, rfl⟩
    · simp [get_active_sources, hv] at h

/-- C8 witness: listing with `limit = 1, skip = 1` over a two-row catalog returns the
second row mapped to the `Source` schema and the unfiltered total 2; defaults evaluate
to 10 and 0. -/
theorem get_active_sources_contract_witness :
    get_active_sources [CatalogSource.mk 1 "a" "d1", CatalogSource.mk 2 "b" "d2"]
        (ListParams.mk (some 1) (some 1)) =
      some (SourcesList.mk [SourceSchema.mk 2 "b" "d2"] 2) ∧
    (SourcesList.mk [SourceSchema.mk 2 "b" "d2"] 2).sources =
      (([CatalogSource.mk 1 "a" "d1", CatalogSource.mk 2 "b" "d2"].drop
          (resolveSkip (ListParams.mk (some 1) (some 1))).toNat).take
          (resolveLimit (ListParams.mk (some 1) (some 1))).toNat).map
        (fun s => SourceSchema.mk s.id s.name s.digest) ∧
    (SourcesList.mk [SourceSchema.mk 2 "b" "d2"] 2).total =
      ([CatalogSource.mk 1 "a" "d1", CatalogSource.mk 2 "b" "d2"] :
        List CatalogSource).length :=
  ⟨by decide,
   (get_active_sources_contract [CatalogSource.mk 1 "a" "d1", CatalogSource.mk 2 "b" "d2"]
      (ListParams.mk (some 1) (some 1)) (SourcesList.mk [SourceSchema.mk 2 "b" "d2"] 2)).2.2.2
      (by decide)⟩

end ContextQA
